import Mathlib

/-!
Shallow embedding of the alarm state machine of `src/src/alarm/mod.rs`
(crate `minmon`), together with proofs about its update algorithms.

Modelling conventions:
* `std::time::SystemTime::now()` and `uuid::Uuid::new_v4()` are opaque fresh
  values; each update call receives them as explicit `now fresh : Nat`
  parameters (at most one of each is consumed per call).
* Rust `u32` counters are modelled as `Nat`: arithmetic overflow of a `u32`
  is a program error in Rust (a panic in debug builds), and every property
  below concerns counter values far below `2^32`, so the idealized
  semantics coincides with the machine one on the inputs considered.
* `PlaceholderMap` (a `HashMap<String, String>`) is modelled as an
  association list observed only through `lookupPm`; `insertPm` prepends,
  which is observationally the replacing insert of `HashMap::insert`.
-/

namespace Minmon

/-- `SinkDecision` from `src/src/alarm/mod.rs`. -/
inductive SinkDecision where
  | Good : SinkDecision
  | Bad : SinkDecision
deriving DecidableEq

/-- `impl std::ops::Not for SinkDecision` (mod.rs lines 22-31). -/
def SinkDecision.not : SinkDecision → SinkDecision
  | .Good => .Bad
  | .Bad => .Good

/-- The `State` enum of mod.rs (lines 63-107), with `GoodState`, `BadState`
and `ErrorState` inlined.  `timestamp`, `uuid` and `last_alarm_uuid` are
opaque `Nat` values. -/
inductive State where
  | Good (timestamp : Nat) (last_alarm_uuid : Option Nat) (bad_cycles : Nat) : State
  | Bad (timestamp : Nat) (uuid : Nat) (cycles : Nat) (good_cycles : Nat) : State
  | Error (timestamp : Nat) (uuid : Nat) (shadowed_state : State) (cycles : Nat) : State
deriving DecidableEq

/-- `State::default()`: `Good(GoodState::default())` with `bad_cycles = 0`
and no `last_alarm_uuid` (mod.rs lines 70-91). -/
def State.initial : State := .Good 0 none 0

/-- `true` exactly on the `Error` variant. -/
def State.isError : State → Bool
  | .Error _ _ _ _ => true
  | _ => false

/-- The `cycles` field of a `Bad` state (the stored bad-count), when the
state is `Bad`. -/
def State.badCount : State → Option Nat
  | .Bad _ _ c _ => some c
  | _ => none

/-- The counter configuration of `AlarmBase` (mod.rs lines 42-61): `cycles`,
`repeat_cycles`, `recover_cycles`, `error_repeat_cycles` and `invert`. -/
structure Config where
  cycles : Nat
  repeat_cycles : Nat
  recover_cycles : Nat
  error_repeat_cycles : Nat
  invert : Bool
deriving DecidableEq

/-- `AlarmBase::error_update_state` (mod.rs lines 149-188). -/
def error_update_state (cfg : Config) (now fresh : Nat) : State → State × Bool
  | .Good ts lu bc => (.Error now fresh (.Good ts lu bc) 1, true)
  | .Bad ts u c gc => (.Error now fresh (.Bad ts u c gc) 1, true)
  | .Error ts u sh c =>
      if c + 1 = cfg.error_repeat_cycles then (.Error ts u sh 1, true)
      else (.Error ts u sh (c + 1), false)

/-- `AlarmBase::bad_update_state` (mod.rs lines 190-235).  In the `Error`
branch the Rust code assigns the shadow to `self.state` and recurses on the
shadow; the caller then overwrites `self.state` with the returned state, so
the net effect is the recursive call on the shadow. -/
def bad_update_state (cfg : Config) (now fresh : Nat) : State → State × Bool
  | .Good ts _lu bc =>
      if bc + 1 = cfg.cycles then (.Bad now fresh 1 0, true)
      else (.Good ts none (bc + 1), false)
  | .Bad ts u c _gc =>
      if c + 1 = cfg.repeat_cycles then (.Bad ts u 1 0, true)
      else (.Bad ts u (c + 1) 0, false)
  | .Error _ts _u sh _c => bad_update_state cfg now fresh sh

/-- `AlarmBase::good_update_state` (mod.rs lines 237-269).  Note that the
`Bad` branch without recovery increments BOTH `cycles` and `good_cycles`,
and the `Error` branch recurses into `bad_update_state` on the shadow. -/
def good_update_state (cfg : Config) (now fresh : Nat) : State → State × Bool
  | .Good ts lu bc => (.Good ts lu bc, false)
  | .Bad ts u c gc =>
      if gc + 1 = cfg.recover_cycles then (.Good now (some u) 0, true)
      else (.Bad ts u (c + 1) (gc + 1), false)
  | .Error _ts _u sh _c => bad_update_state cfg now fresh sh

/-- One engine-level input: a sink verdict after inversion (leading to
`good`/`bad`, mod.rs lines 280-296) or a reported error (leading to
`error`, mod.rs lines 271-278). -/
inductive Event where
  | verdictGood : Event
  | verdictBad : Event
  | err : Event
deriving DecidableEq

/-- Which state-update function an event drives. -/
def step (cfg : Config) (now fresh : Nat) : Event → State → State × Bool
  | .verdictGood => good_update_state cfg now fresh
  | .verdictBad => bad_update_state cfg now fresh
  | .err => error_update_state cfg now fresh

/-- Which trigger function the engine invokes when a step reports
`trigger = true`: `bad` calls `trigger`, `good` calls `trigger_recover`,
`error` calls `trigger_error` (mod.rs lines 271-296). -/
inductive TriggerKind where
  | bad : TriggerKind
  | recover : TriggerKind
  | error : TriggerKind
deriving DecidableEq

/-- The trigger kind invoked by each event's handler. -/
def eventTriggerKind : Event → TriggerKind
  | .verdictGood => .recover
  | .verdictBad => .bad
  | .err => .error

/-- The non-panicking guard of `trigger` / `trigger_recover` /
`trigger_error` (mod.rs lines 298-357): each one panics unless `self.state`
is the matching variant at call time. -/
def triggerGuard : TriggerKind → State → Bool
  | .bad, .Bad _ _ _ _ => true
  | .recover, .Good _ _ _ => true
  | .error, .Error _ _ _ _ => true
  | _, _ => false

/-- Run a list of events (each with its own `now`/`fresh` supply) from a
state; returns the final state and how many times a trigger was invoked. -/
def run (cfg : Config) : List (Event × Nat × Nat) → State → State × Nat
  | [], s => (s, 0)
  | (e, now, fresh) :: rest, s =>
      let r := step cfg now fresh e s
      let r2 := run cfg rest r.1
      (r2.1, (if r.2 then 1 else 0) + r2.2)

/-- Feed a list of bad verdicts (with per-step `now`/`fresh` values);
returns the final state and the number of triggers. -/
def feedBads (cfg : Config) : List (Nat × Nat) → State → State × Nat
  | [], s => (s, 0)
  | (now, fresh) :: rest, s =>
      let r := bad_update_state cfg now fresh s
      let r2 := feedBads cfg rest r.1
      (r2.1, (if r.2 then 1 else 0) + r2.2)

/-- Feed a list of good verdicts. -/
def feedGoods (cfg : Config) : List (Nat × Nat) → State → State × Nat
  | [], s => (s, 0)
  | (now, fresh) :: rest, s =>
      let r := good_update_state cfg now fresh s
      let r2 := feedGoods cfg rest r.1
      (r2.1, (if r.2 then 1 else 0) + r2.2)

/-- Feed a list of reported errors. -/
def feedErrors (cfg : Config) : List (Nat × Nat) → State → State × Nat
  | [], s => (s, 0)
  | (now, fresh) :: rest, s =>
      let r := error_update_state cfg now fresh s
      let r2 := feedErrors cfg rest r.1
      (r2.1, (if r.2 then 1 else 0) + r2.2)

/-- `AlarmBase::put_error` → `error` (mod.rs lines 271-278, 394-403): the
error update is applied unconditionally and the trigger flag decides
whether `trigger_error` runs. -/
def put_error_update (cfg : Config) (now fresh : Nat) (s : State) : State × Bool :=
  error_update_state cfg now fresh s

/-- `AlarmBase::put_data` (mod.rs lines 372-392), state part.  The argument
`sinkResult` is the value returned by `self.data_sink.put_data(data)`.  The
`?` operator returns the sink's error to the caller before any state
update; otherwise `invert` is applied and the matching update runs.  The
result is the engine state after the call paired with the outcome. -/
def put_data_update (cfg : Config) (now fresh : Nat)
    (sinkResult : Except Unit SinkDecision) (s : State) :
    State × Except Unit Bool :=
  match sinkResult with
  | .error e => (s, .error e)
  | .ok d =>
      let d := if cfg.invert then d.not else d
      match d with
      | .Good =>
          let r := good_update_state cfg now fresh s
          (r.1, .ok r.2)
      | .Bad =>
          let r := bad_update_state cfg now fresh s
          (r.1, .ok r.2)

/-- Placeholder maps (`PlaceholderMap = HashMap<String, String>`),
modelled as association lists read through `lookupPm`. -/
abbrev PlaceholderMap := List (String × String)

/-- Map lookup: first binding of the key wins. -/
def lookupPm : PlaceholderMap → String → Option String
  | [], _ => none
  | (k, v) :: rest, key => if k = key then some v else lookupPm rest key

/-- `HashMap::insert`: the new binding replaces any existing one for the
key.  With first-binding-wins lookup, prepending realizes exactly that. -/
def insertPm (m : PlaceholderMap) (k v : String) : PlaceholderMap :=
  (k, v) :: m

/-- Modelled from the spec: `crate::merge_placeholders` is code of this
repository that is not under `src/` (only its callers are).  Per the spec,
`merge(target, source)` inserts, for each key in `source` not already
present in `target`, that binding; existing keys in `target` are never
overwritten. -/
def merge_placeholders (target source : PlaceholderMap) : PlaceholderMap :=
  source.foldl
    (fun t kv => if (lookupPm t kv.1).isSome then t else insertPm t kv.1 kv.2)
    target

/-- `AlarmBase::add_placeholders` (mod.rs lines 359-362): insert
`alarm_name` (replacing any existing binding), then merge the alarm's base
placeholders left-biased. -/
def add_placeholders (name : String) (base : PlaceholderMap)
    (placeholders : PlaceholderMap) : PlaceholderMap :=
  merge_placeholders (insertPm placeholders "alarm_name" name) base

/-! ## Unfolding lemmas -/

theorem feedBads_cons (cfg : Config) (now fresh : Nat) (rest : List (Nat × Nat)) (s : State) :
    feedBads cfg ((now, fresh) :: rest) s =
      ((feedBads cfg rest (bad_update_state cfg now fresh s).1).1,
       (if (bad_update_state cfg now fresh s).2 then 1 else 0) +
         (feedBads cfg rest (bad_update_state cfg now fresh s).1).2) := rfl

theorem feedGoods_cons (cfg : Config) (now fresh : Nat) (rest : List (Nat × Nat)) (s : State) :
    feedGoods cfg ((now, fresh) :: rest) s =
      ((feedGoods cfg rest (good_update_state cfg now fresh s).1).1,
       (if (good_update_state cfg now fresh s).2 then 1 else 0) +
         (feedGoods cfg rest (good_update_state cfg now fresh s).1).2) := rfl

theorem feedErrors_cons (cfg : Config) (now fresh : Nat) (rest : List (Nat × Nat)) (s : State) :
    feedErrors cfg ((now, fresh) :: rest) s =
      ((feedErrors cfg rest (error_update_state cfg now fresh s).1).1,
       (if (error_update_state cfg now fresh s).2 then 1 else 0) +
         (feedErrors cfg rest (error_update_state cfg now fresh s).1).2) := rfl

theorem feedBads_append (cfg : Config) (l1 l2 : List (Nat × Nat)) :
    ∀ s : State,
      feedBads cfg (l1 ++ l2) s =
        ((feedBads cfg l2 (feedBads cfg l1 s).1).1,
         (feedBads cfg l1 s).2 + (feedBads cfg l2 (feedBads cfg l1 s).1).2) := by
  induction l1 with
  | nil => intro s; simp [feedBads]
  | cons p rest ih =>
      intro s
      obtain ⟨now, fresh⟩ := p
      simp [feedBads_cons, ih, Nat.add_assoc]

theorem feedGoods_append (cfg : Config) (l1 l2 : List (Nat × Nat)) :
    ∀ s : State,
      feedGoods cfg (l1 ++ l2) s =
        ((feedGoods cfg l2 (feedGoods cfg l1 s).1).1,
         (feedGoods cfg l1 s).2 + (feedGoods cfg l2 (feedGoods cfg l1 s).1).2) := by
  induction l1 with
  | nil => intro s; simp [feedGoods]
  | cons p rest ih =>
      intro s
      obtain ⟨now, fresh⟩ := p
      simp [feedGoods_cons, ih, Nat.add_assoc]

/-! ## Invariant lemmas about runs of one verdict kind -/

/-- Feeding bad verdicts to a `Good` state below the `cycles` threshold
only advances `bad_cycles` (and clears `last_alarm_uuid` after the first
one), with no trigger. -/
theorem feedBads_good_progress (cfg : Config) (pairs : List (Nat × Nat)) :
    ∀ (ts : Nat) (lu : Option Nat) (j : Nat), j + pairs.length < cfg.cycles →
      feedBads cfg pairs (.Good ts lu j) =
        (.Good ts (if pairs.isEmpty then lu else none) (j + pairs.length), 0) := by
  induction pairs with
  | nil => intro ts lu j _; simp [feedBads]
  | cons p rest ih =>
      intro ts lu j h
      obtain ⟨now, fresh⟩ := p
      have hlen : j + (rest.length + 1) < cfg.cycles := by simpa using h
      have hne : ¬(j + 1 = cfg.cycles) := by omega
      rw [feedBads_cons]
      simp only [bad_update_state, if_neg hne]
      rw [ih ts none (j + 1) (by omega)]
      have e1 : j + 1 + rest.length = j + (rest.length + 1) := by omega
      simp [e1]

/-- Feeding bad verdicts to a `Bad` state when `repeat_cycles = q + 1` with
`q ≥ 1`: the count position wraps modulo `q` and each wrap is one
re-trigger. -/
theorem feedBads_bad_wrap (cfg : Config) (q : Nat) (hrc : cfg.repeat_cycles = q + 1)
    (hq : 1 ≤ q) (pairs : List (Nat × Nat)) :
    ∀ (ts u gc p : Nat), p < q →
      feedBads cfg pairs (.Bad ts u (p + 1) gc) =
        (.Bad ts u ((p + pairs.length) % q + 1) (if pairs.isEmpty then gc else 0),
         (p + pairs.length) / q) := by
  induction pairs with
  | nil =>
      intro ts u gc p hp
      simp [feedBads, Nat.mod_eq_of_lt hp, Nat.div_eq_of_lt hp]
  | cons pr rest ih =>
      intro ts u gc p hp
      obtain ⟨now, fresh⟩ := pr
      rw [feedBads_cons]
      by_cases hcase : p + 1 = q
      · have hcond : p + 1 + 1 = cfg.repeat_cycles := by omega
        simp only [bad_update_state, if_pos hcond]
        rw [ih ts u 0 0 (by omega)]
        have e1 : p + ((now, fresh) :: rest).length = rest.length + q := by
          simp; omega
        rw [e1]
        have hq0 : 0 < q := hq
        simp only [Nat.zero_add, List.isEmpty_cons, ite_self, if_true,
          Nat.add_mod_right, Nat.add_div_right _ hq0]
        exact Prod.ext rfl (by omega)
      · have hcond : ¬(p + 1 + 1 = cfg.repeat_cycles) := by omega
        simp only [bad_update_state, if_neg hcond]
        rw [ih ts u 0 (p + 1) (by omega)]
        have e2 : p + ((now, fresh) :: rest).length = p + 1 + rest.length := by
          simp; omega
        rw [e2]
        simp

/-- With `repeat_cycles ≤ 1`, feeding bad verdicts to a `Bad` state with a
positive count never triggers: the count just keeps growing. -/
theorem feedBads_bad_noRepeat (cfg : Config) (hr : cfg.repeat_cycles ≤ 1)
    (pairs : List (Nat × Nat)) :
    ∀ (ts u c gc : Nat),
      feedBads cfg pairs (.Bad ts u (c + 1) gc) =
        (.Bad ts u (c + 1 + pairs.length) (if pairs.isEmpty then gc else 0), 0) := by
  induction pairs with
  | nil => intro ts u c gc; simp [feedBads]
  | cons pr rest ih =>
      intro ts u c gc
      obtain ⟨now, fresh⟩ := pr
      have hcond : ¬(c + 1 + 1 = cfg.repeat_cycles) := by omega
      rw [feedBads_cons]
      simp only [bad_update_state, if_neg hcond]
      rw [ih ts u (c + 1) 0]
      have e1 : c + 1 + 1 + rest.length = c + 1 + (rest.length + 1) := by omega
      simp [e1]

/-- Feeding good verdicts to a `Bad` state below the `recover_cycles`
threshold advances both counters in lockstep, with no trigger. -/
theorem feedGoods_bad_progress (cfg : Config) (pairs : List (Nat × Nat)) :
    ∀ (ts u c gc : Nat), gc + pairs.length < cfg.recover_cycles →
      feedGoods cfg pairs (.Bad ts u c gc) =
        (.Bad ts u (c + pairs.length) (gc + pairs.length), 0) := by
  induction pairs with
  | nil => intro ts u c gc _; simp [feedGoods]
  | cons pr rest ih =>
      intro ts u c gc h
      obtain ⟨now, fresh⟩ := pr
      have hlen : gc + (rest.length + 1) < cfg.recover_cycles := by simpa using h
      have hne : ¬(gc + 1 = cfg.recover_cycles) := by omega
      rw [feedGoods_cons]
      simp only [good_update_state, if_neg hne]
      rw [ih ts u (c + 1) (gc + 1) (by omega)]
      have e1 : c + 1 + rest.length = c + (rest.length + 1) := by omega
      have e2 : gc + 1 + rest.length = gc + (rest.length + 1) := by omega
      simp [e1, e2]

/-- Error updates on an `Error` state never touch the timestamp, the
episode identifier or the shadow. -/
theorem feedErrors_shadow (cfg : Config) (pairs : List (Nat × Nat)) :
    ∀ (ts u : Nat) (sh : State) (c : Nat), ∃ c2 : Nat,
      (feedErrors cfg pairs (.Error ts u sh c)).1 = .Error ts u sh c2 := by
  induction pairs with
  | nil => intro ts u sh c; exact ⟨c, rfl⟩
  | cons pr rest ih =>
      intro ts u sh c
      obtain ⟨now, fresh⟩ := pr
      rw [feedErrors_cons]
      by_cases hcase : c + 1 = cfg.error_repeat_cycles
      · simp only [error_update_state, if_pos hcase]
        exact ih ts u sh 1
      · simp only [error_update_state, if_neg hcase]
        exact ih ts u sh (c + 1)

/-- With `error_repeat_cycles = 0`, errors in the `Error` state only count,
never trigger. -/
theorem feedErrors_noRepeat (cfg : Config) (he : cfg.error_repeat_cycles = 0)
    (pairs : List (Nat × Nat)) :
    ∀ (ts u : Nat) (sh : State) (c : Nat),
      feedErrors cfg pairs (.Error ts u sh c) =
        (.Error ts u sh (c + pairs.length), 0) := by
  induction pairs with
  | nil => intro ts u sh c; simp [feedErrors]
  | cons pr rest ih =>
      intro ts u sh c
      obtain ⟨now, fresh⟩ := pr
      have hcond : ¬(c + 1 = cfg.error_repeat_cycles) := by omega
      rw [feedErrors_cons]
      simp only [error_update_state, if_neg hcond]
      rw [ih ts u sh (c + 1)]
      have e1 : c + 1 + rest.length = c + (rest.length + 1) := by omega
      simp [e1]

/-! ## Placeholder-merge lemmas -/

theorem merge_placeholders_cons (t : PlaceholderMap) (k v : String)
    (rest : PlaceholderMap) :
    merge_placeholders t ((k, v) :: rest) =
      merge_placeholders (if (lookupPm t k).isSome then t else insertPm t k v)
        rest := rfl

theorem lookupPm_insert_ne (m : PlaceholderMap) (k v key : String) (h : k ≠ key) :
    lookupPm (insertPm m k v) key = lookupPm m key := by
  simp [insertPm, lookupPm, h]

/-- Keys already present in `target` are never changed by the merge. -/
theorem lookupPm_merge_of_isSome (source : PlaceholderMap) :
    ∀ (target : PlaceholderMap) (key : String), (lookupPm target key).isSome →
      lookupPm (merge_placeholders target source) key = lookupPm target key := by
  induction source with
  | nil => intro t key _; rfl
  | cons kv rest ih =>
      intro t key h
      obtain ⟨k, v⟩ := kv
      rw [merge_placeholders_cons]
      by_cases hk : (lookupPm t k).isSome
      · rw [if_pos hk]
        exact ih t key h
      · rw [if_neg hk]
        have hne : k ≠ key := by
          intro e; subst e; exact hk h
        rw [ih (insertPm t k v) key (by rw [lookupPm_insert_ne t k v key hne]; exact h)]
        exact lookupPm_insert_ne t k v key hne

/-! ## Claims -/

/-- C1: the claim states that `trigger`, `trigger_recover` and
`trigger_error` are never called while the state is not the matching
variant, i.e. the mismatched-state `panic!()` branches are unreachable when
the update algorithms are followed.  The code violates this: with
`cycles = 2`, after one bad verdict, one reported error and one good
verdict from the initial Normal-Good state, the good-verdict update routes
through `bad_update_state` on the shadowed state, returns a `Bad` state
together with `trigger = true`, and `good` then calls `trigger_recover`
while `self.state` is `Bad` — the guard of `trigger_recover` fails and its
panic branch runs. -/
theorem C1_recover_panic_reachable :
    ((run ⟨2, 0, 2, 0, false⟩ [(.verdictBad, 1, 1), (.err, 2, 2)] State.initial).1 =
        .Error 2 2 (.Good 0 none 1) 1) ∧
    (step ⟨2, 0, 2, 0, false⟩ 3 3 .verdictGood
        (run ⟨2, 0, 2, 0, false⟩ [(.verdictBad, 1, 1), (.err, 2, 2)] State.initial).1).2 =
      true ∧
    triggerGuard (eventTriggerKind .verdictGood)
        (step ⟨2, 0, 2, 0, false⟩ 3 3 .verdictGood
          (run ⟨2, 0, 2, 0, false⟩ [(.verdictBad, 1, 1), (.err, 2, 2)] State.initial).1).1 =
      false := by
  decide

/-- C2: for every configuration with `cycles = c > 0` (here
`c = pairs.length + 1`), starting in Normal-Good with zero bad-progress,
the first `c - 1` consecutive bad verdicts never trigger, and the `c`-th
triggers exactly once and moves to Normal-Bad with the freshly generated
episode identifier, bad-count 1 and recovery-progress 0. -/
theorem C2_first_bad_trigger (cfg : Config) (ts : Nat) (lu : Option Nat)
    (pairs : List (Nat × Nat)) (hlen : pairs.length + 1 = cfg.cycles)
    (now fresh : Nat) :
    (feedBads cfg pairs (.Good ts lu 0)).2 = 0 ∧
    feedBads cfg (pairs ++ [(now, fresh)]) (.Good ts lu 0) =
      (.Bad now fresh 1 0, 1) := by
  have hpre := feedBads_good_progress cfg pairs ts lu 0 (by omega)
  constructor
  · rw [hpre]
  · rw [feedBads_append, hpre]
    have hcond : 0 + pairs.length + 1 = cfg.cycles := by omega
    rw [feedBads_cons]
    simp only [bad_update_state, if_pos hcond]
    simp [feedBads]

/-- C2 witness: `cycles = 3`, two bad verdicts do not trigger, the third
does. -/
theorem C2_first_bad_trigger_witness :
    ([(1, 1), (2, 2)] : List (Nat × Nat)).length + 1 =
      (⟨3, 0, 1, 0, false⟩ : Config).cycles ∧
    ((feedBads ⟨3, 0, 1, 0, false⟩ [(1, 1), (2, 2)] (.Good 0 none 0)).2 = 0 ∧
      feedBads ⟨3, 0, 1, 0, false⟩ ([(1, 1), (2, 2)] ++ [(9, 9)]) (.Good 0 none 0) =
        (.Bad 9 9 1 0, 1)) :=
  ⟨by decide,
    C2_first_bad_trigger ⟨3, 0, 1, 0, false⟩ 0 none [(1, 1), (2, 2)] (by decide) 9 9⟩

/-- C3 counterexample: with `repeat_cycles = 2`, a `Bad` state whose count
was just reset to 1 by a (re-)trigger re-triggers on every single
subsequent bad verdict: two consecutive bad verdicts yield two re-triggers,
not the one-per-two that "exactly once per r consecutive bad verdicts"
requires. -/
theorem C3_cex :
    (feedBads ⟨2, 2, 2, 0, false⟩ [(1, 1), (2, 2)] (.Bad 0 0 1 0)).2 = 2 ∧
    (feedBads ⟨2, 2, 2, 0, false⟩ [(1, 1), (2, 2)] (.Bad 0 0 1 0)).2 ≠ 1 := by
  decide

/-- C3 (amended): a bad verdict in Normal-Bad re-triggers exactly when the
incremented count equals `repeat_cycles`, resetting the count to 1.  Since
the count restarts at 1 (the triggering verdict counts itself), with
`repeat_cycles = q + 2` a just-(re-)triggered `Bad` state re-triggers
exactly every `q + 1` consecutive bad verdicts (`n` verdicts give
`n / (q + 1)` re-triggers), and with `repeat_cycles = 0` or
`repeat_cycles = 1` no repeat trigger ever fires from any positive
count. -/
theorem C3_repeat_law (cfg : Config) :
    (∀ (now fresh ts u c gc : Nat),
        bad_update_state cfg now fresh (.Bad ts u c gc) =
          if c + 1 = cfg.repeat_cycles then (.Bad ts u 1 0, true)
          else (.Bad ts u (c + 1) 0, false)) ∧
    (∀ q : Nat, cfg.repeat_cycles = q + 2 →
        ∀ (pairs : List (Nat × Nat)) (ts u gc : Nat),
          (feedBads cfg pairs (.Bad ts u 1 gc)).2 = pairs.length / (q + 1)) ∧
    (cfg.repeat_cycles ≤ 1 →
        ∀ (pairs : List (Nat × Nat)) (ts u c gc : Nat),
          (feedBads cfg pairs (.Bad ts u (c + 1) gc)).2 = 0) := by
  refine ⟨fun now fresh ts u c gc => rfl, ?_, ?_⟩
  · intro q hq pairs ts u gc
    have h := feedBads_bad_wrap cfg (q + 1) (by omega) (by omega) pairs ts u gc 0
      (by omega)
    simp only [Nat.zero_add] at h
    rw [h]
  · intro hr pairs ts u c gc
    rw [feedBads_bad_noRepeat cfg hr pairs ts u c gc]

/-- C3 witness: `repeat_cycles = 3 = 1 + 2`, four bad verdicts from a
just-triggered `Bad` state give `4 / 2 = 2` re-triggers. -/
theorem C3_repeat_law_witness :
    (⟨2, 3, 2, 0, false⟩ : Config).repeat_cycles = 1 + 2 ∧
    (feedBads ⟨2, 3, 2, 0, false⟩ [(1, 1), (2, 2), (3, 3), (4, 4)] (.Bad 0 0 1 0)).2 =
      ([(1, 1), (2, 2), (3, 3), (4, 4)] : List (Nat × Nat)).length / (1 + 1) :=
  ⟨rfl, (C3_repeat_law ⟨2, 3, 2, 0, false⟩).2.1 1 rfl [(1, 1), (2, 2), (3, 3), (4, 4)] 0 0 0⟩

/-- C4: from Normal-Bad with `recover_cycles = k > 0` (here
`k = pairs.length + 1`) and recovery progress 0, `k` consecutive good
verdicts trigger recovery exactly once (on the `k`-th) and move to
Normal-Good with zero bad-progress, carrying the cleared episode's
identifier forward; and any bad verdict in Normal-Bad resets the recovery
progress to 0. -/
theorem C4_recovery (cfg : Config) (ts u c : Nat) (pairs : List (Nat × Nat))
    (hlen : pairs.length + 1 = cfg.recover_cycles) (now fresh : Nat) :
    (feedGoods cfg pairs (.Bad ts u c 0)).2 = 0 ∧
    feedGoods cfg (pairs ++ [(now, fresh)]) (.Bad ts u c 0) =
      (.Good now (some u) 0, 1) ∧
    (∀ (now2 fresh2 ts2 u2 c2 gc2 : Nat), ∃ (c3 : Nat) (b : Bool),
        bad_update_state cfg now2 fresh2 (.Bad ts2 u2 c2 gc2) =
          (.Bad ts2 u2 c3 0, b)) := by
  have hpre := feedGoods_bad_progress cfg pairs ts u c 0 (by omega)
  refine ⟨?_, ?_, ?_⟩
  · rw [hpre]
  · rw [feedGoods_append, hpre]
    have hcond : 0 + pairs.length + 1 = cfg.recover_cycles := by omega
    rw [feedGoods_cons]
    simp only [good_update_state, if_pos hcond]
    simp [feedGoods]
  · intro now2 fresh2 ts2 u2 c2 gc2
    by_cases hcase : c2 + 1 = cfg.repeat_cycles
    · exact ⟨1, true, by simp only [bad_update_state, if_pos hcase]⟩
    · exact ⟨c2 + 1, false, by simp only [bad_update_state, if_neg hcase]⟩

/-- C4 witness: `recover_cycles = 2`, one good verdict does not trigger,
the second recovers, carrying the bad episode's identifier `4` forward. -/
theorem C4_recovery_witness :
    ([(1, 1)] : List (Nat × Nat)).length + 1 =
      (⟨2, 0, 2, 0, false⟩ : Config).recover_cycles ∧
    (feedGoods ⟨2, 0, 2, 0, false⟩ [(1, 1)] (.Bad 0 4 1 0)).2 = 0 ∧
    feedGoods ⟨2, 0, 2, 0, false⟩ ([(1, 1)] ++ [(9, 9)]) (.Bad 0 4 1 0) =
      (.Good 9 (some 4) 0, 1) :=
  ⟨by decide, (C4_recovery ⟨2, 0, 2, 0, false⟩ 0 4 1 [(1, 1)] (by decide) 9 9).1,
    (C4_recovery ⟨2, 0, 2, 0, false⟩ 0 4 1 [(1, 1)] (by decide) 9 9).2.1⟩

/-- C5: the good-verdict update on an `Error` state returns exactly the
state and trigger decision of the bad-verdict update applied to the
shadowed state — a good sample that ends an error episode is processed as
if it were a bad sample against the shadow. -/
theorem C5_good_on_error_is_bad_on_shadow (cfg : Config) (now fresh ts u c : Nat)
    (sh : State) :
    good_update_state cfg now fresh (.Error ts u sh c) =
      bad_update_state cfg now fresh sh := rfl

/-- C6: if an error episode began while the state was `S` (not `Error`),
then after any number of further errors, the first bad verdict produces
exactly the state and trigger decision that a bad verdict applied directly
to `S` would have produced — no bad-progress is lost or duplicated from
samples seen while erroring. -/
theorem C6_resume_after_errors (cfg : Config) (S : State) (hS : S.isError = false)
    (n0 f0 : Nat) (more : List (Nat × Nat)) (nb fb : Nat) :
    bad_update_state cfg nb fb
        (feedErrors cfg more (error_update_state cfg n0 f0 S).1).1 =
      bad_update_state cfg nb fb S := by
  have h1 : (error_update_state cfg n0 f0 S).1 = .Error n0 f0 S 1 := by
    cases S with
    | Good ts lu bc => rfl
    | Bad ts u c gc => rfl
    | Error ts u sh c => simp [State.isError] at hS
  rw [h1]
  obtain ⟨c2, h2⟩ := feedErrors_shadow cfg more n0 f0 S 1
  rw [h2]
  simp only [bad_update_state]

/-- C6 witness: an episode opened from `Good` with bad-progress 1, three
further errors, then a bad verdict — same result as the bad verdict on the
original state. -/
theorem C6_resume_after_errors_witness :
    (State.Good 0 none 1).isError = false ∧
    bad_update_state ⟨2, 0, 2, 3, false⟩ 9 9
        (feedErrors ⟨2, 0, 2, 3, false⟩ [(2, 2), (3, 3), (4, 4)]
          (error_update_state ⟨2, 0, 2, 3, false⟩ 1 1 (State.Good 0 none 1)).1).1 =
      bad_update_state ⟨2, 0, 2, 3, false⟩ 9 9 (State.Good 0 none 1) :=
  ⟨rfl, C6_resume_after_errors ⟨2, 0, 2, 3, false⟩ (State.Good 0 none 1) rfl 1 1
    [(2, 2), (3, 3), (4, 4)] 9 9⟩

/-- C7: the error update opens a fresh `Error` episode (count 1, shadow a
full copy of the prior state) with a trigger from `Good` or from `Bad`; on
an existing `Error` it re-triggers exactly when the incremented count
equals `error_repeat_cycles` (resetting the count to 1) and otherwise only
counts, leaving shadow, identifier and timestamp untouched; and with
`error_repeat_cycles = 0` a run of further errors never re-triggers. -/
theorem C7_error_update_law (cfg : Config) :
    (∀ (now fresh ts : Nat) (lu : Option Nat) (bc : Nat),
        error_update_state cfg now fresh (.Good ts lu bc) =
          (.Error now fresh (.Good ts lu bc) 1, true)) ∧
    (∀ (now fresh ts u c gc : Nat),
        error_update_state cfg now fresh (.Bad ts u c gc) =
          (.Error now fresh (.Bad ts u c gc) 1, true)) ∧
    (∀ (now fresh ts u : Nat) (sh : State) (c : Nat),
        error_update_state cfg now fresh (.Error ts u sh c) =
          if c + 1 = cfg.error_repeat_cycles then (.Error ts u sh 1, true)
          else (.Error ts u sh (c + 1), false)) ∧
    (cfg.error_repeat_cycles = 0 →
        ∀ (pairs : List (Nat × Nat)) (ts u : Nat) (sh : State) (c : Nat),
          feedErrors cfg pairs (.Error ts u sh c) =
            (.Error ts u sh (c + pairs.length), 0)) :=
  ⟨fun _ _ _ _ _ => rfl, fun _ _ _ _ _ _ => rfl, fun _ _ _ _ _ _ => rfl,
    fun he pairs ts u sh c => feedErrors_noRepeat cfg he pairs ts u sh c⟩

/-- C7 witness: with `error_repeat_cycles = 0`, three further errors only
count, no re-trigger. -/
theorem C7_error_update_law_witness :
    (⟨2, 0, 2, 0, false⟩ : Config).error_repeat_cycles = 0 ∧
    feedErrors ⟨2, 0, 2, 0, false⟩ [(1, 1), (2, 2), (3, 3)]
        (.Error 0 0 (.Good 0 none 0) 1) =
      (.Error 0 0 (.Good 0 none 0) (1 + 3), 0) :=
  ⟨rfl, (C7_error_update_law ⟨2, 0, 2, 0, false⟩).2.2.2 rfl [(1, 1), (2, 2), (3, 3)]
    0 0 (.Good 0 none 0) 1⟩

/-- C8 counterexample: a sink classification error in `put_data` leaves the
alarm state unchanged, while the error update — what `put_error` applies —
would move the initial state into an `Error` episode.  The claim that the
state is updated "exactly as if the failure had been reported via
put_error" is therefore false. -/
theorem C8_cex :
    (put_data_update ⟨2, 0, 2, 0, false⟩ 1 1 (.error ()) State.initial).1 =
      State.initial ∧
    (error_update_state ⟨2, 0, 2, 0, false⟩ 1 1 State.initial).1 ≠ State.initial := by
  exact ⟨rfl, by decide⟩

/-- C8 (amended): when the Decision Sink returns a classification error,
`put_data` propagates that error to its caller as its own result and leaves
the alarm state unchanged — no update function runs; the error update is
applied only through `put_error`. -/
theorem C8_sink_error_propagates (cfg : Config) (now fresh : Nat) (e : Unit)
    (s : State) :
    put_data_update cfg now fresh (.error e) s = (s, .error e) ∧
    put_error_update cfg now fresh s = error_update_state cfg now fresh s :=
  ⟨rfl, rfl⟩

/-- C9 counterexample: a caller-supplied `alarm_name` IS overwritten — the
engine writes the alarm's own name with the replacing `HashMap::insert`
before the left-biased merge, so the payload carries the alarm's name and
not the caller's value. -/
theorem C9_cex :
    lookupPm (add_placeholders "Name" [] [("alarm_name", "FromCaller")])
        "alarm_name" = some "Name" ∧
    lookupPm (add_placeholders "Name" [] [("alarm_name", "FromCaller")])
        "alarm_name" ≠ some "FromCaller" := by
  exact ⟨rfl, by decide⟩

/-- C9 (amended): the merge of the alarm's base placeholders is left-biased
— any key already present in the caller-supplied map survives unchanged,
so caller-supplied context wins over alarm-level defaults — but the key
`alarm_name` is written with replacing insert semantics and always carries
the alarm's name, overwriting any caller-supplied binding. -/
theorem C9_merge_left_biased :
    (∀ (target source : PlaceholderMap) (key : String),
        (lookupPm target key).isSome →
        lookupPm (merge_placeholders target source) key = lookupPm target key) ∧
    (∀ (name : String) (base m : PlaceholderMap),
        lookupPm (add_placeholders name base m) "alarm_name" = some name) ∧
    (∀ (name : String) (base m : PlaceholderMap) (key : String),
        key ≠ "alarm_name" → (lookupPm m key).isSome →
        lookupPm (add_placeholders name base m) key = lookupPm m key) := by
  refine ⟨fun t s k h => lookupPm_merge_of_isSome s t k h, ?_, ?_⟩
  · intro name base m
    have hin : lookupPm (insertPm m "alarm_name" name) "alarm_name" = some name := by
      simp [insertPm, lookupPm]
    unfold add_placeholders
    rw [lookupPm_merge_of_isSome base _ _ (by rw [hin]; rfl), hin]
  · intro name base m key hk h
    have hpre : lookupPm (insertPm m "alarm_name" name) key = lookupPm m key :=
      lookupPm_insert_ne m "alarm_name" name key (fun e => hk e.symm)
    unfold add_placeholders
    rw [lookupPm_merge_of_isSome base _ _ (by rw [hpre]; exact h), hpre]

/-- C9 witness: a caller-supplied `Foo` survives the merge of a base map
that also binds `Foo`, and `alarm_name` is populated with the alarm's
name. -/
theorem C9_merge_left_biased_witness :
    (lookupPm [("Foo", "Bar")] "Foo").isSome = true ∧
    lookupPm (merge_placeholders [("Foo", "Bar")] [("Foo", "Baz"), ("Hello", "World")])
        "Foo" = lookupPm [("Foo", "Bar")] "Foo" ∧
    lookupPm (add_placeholders "Name" [("Hello", "World")] []) "alarm_name" =
      some "Name" :=
  ⟨rfl,
    C9_merge_left_biased.1 [("Foo", "Bar")] [("Foo", "Baz"), ("Hello", "World")]
      "Foo" rfl,
    C9_merge_left_biased.2.1 "Name" [("Hello", "World")] []⟩

/-- C10 counterexample: with `recover_cycles = 3`, a good verdict on a
`Bad` state with bad-count 1 and recovery progress 0 does not complete
recovery, yet changes the stored bad-count from 1 to 2 — the claim that the
bad-count field is left unchanged is false. -/
theorem C10_cex :
    (good_update_state ⟨2, 0, 3, 0, false⟩ 5 7 (.Bad 0 0 1 0)).2 = false ∧
    ((good_update_state ⟨2, 0, 3, 0, false⟩ 5 7 (.Bad 0 0 1 0)).1).badCount ≠
      (State.Bad 0 0 1 0).badCount := by
  decide

/-- C10 (amended): in Normal-Bad, a good verdict that does not complete
recovery increments BOTH the recovery-progress counter and the stored
bad-count, leaving timestamp and identifier unchanged, with no trigger. -/
theorem C10_good_increments_both (cfg : Config) (now fresh ts u c gc : Nat)
    (h : gc + 1 ≠ cfg.recover_cycles) :
    good_update_state cfg now fresh (.Bad ts u c gc) =
      (.Bad ts u (c + 1) (gc + 1), false) := by
  simp only [good_update_state, if_neg h]

/-- C10 witness: concrete non-recovering good verdict. -/
theorem C10_good_increments_both_witness :
    (0 : Nat) + 1 ≠ (⟨2, 0, 3, 0, false⟩ : Config).recover_cycles ∧
    good_update_state ⟨2, 0, 3, 0, false⟩ 5 7 (.Bad 0 0 1 0) = (.Bad 0 0 2 1, false) :=
  ⟨by decide, C10_good_increments_both ⟨2, 0, 3, 0, false⟩ 5 7 0 0 1 0 (by decide)⟩

end Minmon
